import Mathlib

/-!
Verification development for the mmdvm-dash log-ingestion core.

This file gives a shallow embedding of the repository's Python sources
(`dashboard/state.py`, `dashboard/monitor.py`, `dashboard/parsers.py`)
and proves or refutes the frozen claims about them.

Modelling conventions:
* Python dicts are insertion-ordered association lists (`dictGet?`,
  `dictSet`, `dictErase` mirror `d[k]`, `d[k] = v`, `del d[k]`).
* `collections.deque(maxlen = n)` is a list with `dequeAppend`, which
  drops the oldest element once the bound is exceeded.
* Wall-clock reads (`datetime.now().timestamp()`) are explicit `Nat`
  parameters threaded through every operation that reads the clock.
* `asyncio.create_task(self.broadcast_status_update())` is instrumented
  as the counter `broadcast_tasks`; the debounced task spawned inside
  `schedule_broadcast` is instrumented as `debounce_scheduled`.
* Values stored in the heterogeneous `networks` dict (`bool` or `str`
  in Python) are `PyVal`, with Python truthiness as `PyVal.truthy`.
-/

namespace MMDVMDash

/-- A Python value as stored in the loosely-typed dicts of `state.py`. -/
inductive PyVal where
  | bool : Bool → PyVal
  | str : String → PyVal
  | num : Nat → PyVal
  | time : Nat → PyVal
  | pynone : PyVal
deriving DecidableEq, Repr

/-- Python truthiness for the values that occur in this codebase. -/
def PyVal.truthy : PyVal → Bool
  | .bool b => b
  | .str s => !(s == "")
  | .num n => !(n == 0)
  | .time _ => true
  | .pynone => false

/-- Python `str.lower()` (ASCII), written over the character list so the
kernel can evaluate it. -/
def pyLower (s : String) : String := ⟨s.data.map Char.toLower⟩

/-- Truthiness of an `Optional[str]` argument (None or a string). -/
def optStrTruthy : Option String → Bool
  | none => false
  | some s => !(s == "")

/-- Python dict lookup `d.get(k)`. -/
def dictGet? {α : Type} : List (String × α) → String → Option α
  | [], _ => none
  | (k', v) :: rest, k => if k' = k then some v else dictGet? rest k

/-- Python dict assignment `d[k] = v` (update in place, insertion order kept). -/
def dictSet {α : Type} : List (String × α) → String → α → List (String × α)
  | [], k, v => [(k, v)]
  | (k', v') :: rest, k, v =>
    if k' = k then (k', v) :: rest else (k', v') :: dictSet rest k v

/-- Python dict deletion `del d[k]`. -/
def dictErase {α : Type} (d : List (String × α)) (k : String) : List (String × α) :=
  d.filter (fun kv => kv.1 != k)

/-- Append to a `deque(maxlen := maxlen)`: the oldest entries are dropped. -/
def dequeAppend {α : Type} (maxlen : Nat) (xs : List α) (x : α) : List α :=
  let l := xs ++ [x]
  if maxlen < l.length then l.drop (l.length - maxlen) else l

/-- Add to a Python `set` (modelled as a duplicate-free list). -/
def setAdd (xs : List String) (x : String) : List String :=
  if xs.contains x then xs else xs ++ [x]

/-- Timestamp fields extracted by `datetime.strptime(.., m%Y-%m-%d %H:%M:%S.%f)`. -/
structure Ts where
  year : Nat
  month : Nat
  day : Nat
  hour : Nat
  minute : Nat
  second : Nat
  millis : Nat
deriving DecidableEq, Repr

/-- A timestamp value: either parsed fields, or a raw wall-clock reading
(the `datetime.now()` fallback).  The two constructors are distinct, so a
clock-derived timestamp is never equal to a parsed one. -/
inductive TimeVal where
  | fields : Ts → TimeVal
  | clock : Nat → TimeVal
deriving DecidableEq, Repr

/-- `SystemStatus` dataclass of `state.py`. -/
structure SystemStatus where
  current_mode : String := "IDLE"
  modem_connected : Bool := false
  modem_description : String := ""
  networks : List (String × PyVal) := []
  last_update : Nat := 0
  mmdvm_running : Bool := false
  enabled_modes : List String := []
  gateways : List (String × List (String × PyVal)) := []
  info : List (String × PyVal) := []
deriving DecidableEq, Repr

/-- `Transmission` dataclass of `state.py` (duration as a whole number of
seconds; the float formatting of durations is not needed by any claim). -/
structure Transmission where
  timestamp : TimeVal
  mode : String
  source : String
  destination : String
  slot : Nat := 0
  network : String := ""
  duration : Nat := 0
  active : Bool := true
deriving DecidableEq, Repr

/-- `Transmission.to_dict`. -/
def Transmission.toDict (t : Transmission) : List (String × PyVal) :=
  [("timestamp", match t.timestamp with
      | .fields f => .num (f.year * 10000 + f.month * 100 + f.day)
      | .clock n => .time n),
   ("mode", .str t.mode), ("source", .str t.source),
   ("destination", .str t.destination), ("slot", .num t.slot),
   ("network", .str t.network), ("duration", .num t.duration),
   ("active", .bool t.active)]

/-- `Event` dataclass of `state.py`. -/
structure Event where
  timestamp : TimeVal
  event_type : String
  source : String
  message : String
  data : List (String × PyVal) := []
deriving DecidableEq, Repr

/-- `max_recent_calls` default of `DashboardState.__init__`. -/
def maxRecentCalls : Nat := 50

/-- `max_events` default of `DashboardState.__init__`. -/
def maxEvents : Nat := 100

/-- The `DashboardState` class of `state.py`.  `broadcast_tasks` counts
calls to `asyncio.create_task(self.broadcast_status_update())` (immediate
broadcast tasks); `debounce_scheduled` counts debounced broadcast tasks
created inside `schedule_broadcast`.  The WebSocket client set and the
delivery-side content hash live on the I/O boundary and are not part of
any claim about scheduling, so they are not modelled. -/
structure DashboardState where
  status : SystemStatus := {}
  recent_calls : List Transmission := []
  events : List Event := []
  active_transmissions : List (String × Transmission) := []
  stats_total_calls_today : Nat := 0
  stats_calls_by_mode : List (String × Nat) := []
  stats_active_users : List String := []
  broadcast_pending : Bool := false
  suppress_broadcasts : Bool := false
  broadcast_tasks : Nat := 0
  debounce_scheduled : Nat := 0
deriving DecidableEq, Repr

/-- `DashboardState.add_event`. -/
def addEvent (st : DashboardState) (e : Event) : DashboardState :=
  { st with events := dequeAppend maxEvents st.events e }

/-- `DashboardState.update_mode` (`state.py` lines 90-112).  `t` is the
`datetime.now().timestamp()` reading. -/
def updateMode (st : DashboardState) (mode : String) (t : Nat) : DashboardState :=
  let oldMode := st.status.current_mode
  let st := { st with status := { st.status with current_mode := mode, last_update := t } }
  let ev : Event :=
    { timestamp := .clock t
      event_type := "mode_change"
      source := "mmdvmhost"
      message := "Mode changed from " ++ oldMode ++ " to " ++ mode
      data := [("old_mode", .str oldMode), ("new_mode", .str mode)] }
  let st := addEvent st ev
  { st with broadcast_tasks := st.broadcast_tasks + 1 }

/-- `DashboardState.update_network_status` (`state.py` lines 114-149).
`connected` is a `PyVal` because the code also passes the string
`'unknown'` for it (in `monitor.py._mark_unknown_state`); all other call
sites pass a real boolean.  No broadcast task is created here. -/
def updateNetworkStatus (st : DashboardState) (network : String)
    (connected : PyVal) (target : Option String) (t : Nat) : DashboardState :=
  let value : PyVal :=
    if connected.truthy && optStrTruthy target then .str (target.getD "")
    else connected
  let st := { st with status :=
    { st.status with networks := dictSet st.status.networks network value,
                     last_update := t } }
  let message :=
    if optStrTruthy target && connected.truthy then
      network ++ " connected to " ++ target.getD ""
    else
      network ++ (if connected.truthy then " connected" else " disconnected")
  let ev : Event :=
    { timestamp := .clock t
      event_type := "network_status"
      source := "network"
      message := message
      data := [("network", .str network), ("connected", connected),
               ("target", match target with | some s => .str s | none => .pynone)] }
  addEvent st ev

/-- The dict key `f"{mode}_{slot}_{source}"` used for active transmissions. -/
def txKey (tx : Transmission) : String :=
  tx.mode ++ "_" ++ toString tx.slot ++ "_" ++ tx.source

/-- `DashboardState.add_transmission` (`state.py` lines 151-176). -/
def addTransmission (st : DashboardState) (tx : Transmission) : DashboardState :=
  let key := txKey tx
  let st := { st with active_transmissions := dictSet st.active_transmissions key tx }
  let st := { st with recent_calls := dequeAppend maxRecentCalls st.recent_calls tx }
  let modeStats := (dictGet? st.stats_calls_by_mode tx.mode).getD 0
  let st := { st with
    stats_total_calls_today := st.stats_total_calls_today + 1,
    stats_calls_by_mode := dictSet st.stats_calls_by_mode tx.mode (modeStats + 1),
    stats_active_users := setAdd st.stats_active_users tx.source }
  let ev : Event :=
    { timestamp := tx.timestamp
      event_type := "transmission_start"
      source := pyLower tx.mode
      message := tx.source ++ " → " ++ tx.destination ++ " on " ++ tx.mode
      data := tx.toDict }
  let st := addEvent st ev
  { st with broadcast_tasks := st.broadcast_tasks + 1 }

/-- `DashboardState.end_transmission` (`state.py` lines 178-198).  In
Python the `Transmission` object is mutated in place (so the aliased
record in `recent_calls` also flips to inactive); the embedding keeps
`recent_calls` immutable copies, which no claim observes. -/
def endTransmission (st : DashboardState) (key : String) (duration : Nat)
    (t : Nat) : DashboardState :=
  match dictGet? st.active_transmissions key with
  | none => st
  | some tx =>
    let tx := { tx with active := false, duration := duration }
    let ev : Event :=
      { timestamp := .clock t
        event_type := "transmission_end"
        source := pyLower tx.mode
        message := tx.source ++ " → " ++ tx.destination ++ " ended (" ++
                   toString duration ++ ".0s)"
        data := tx.toDict }
    let st := addEvent st ev
    let st := { st with active_transmissions := dictErase st.active_transmissions key }
    { st with broadcast_tasks := st.broadcast_tasks + 1 }

/-- `DashboardState.end_transmission_by_mode` (`state.py` lines 200-206). -/
def endTransmissionByMode (st : DashboardState) (mode : String) (t : Nat) :
    DashboardState :=
  let keysToRemove :=
    (st.active_transmissions.filter (fun kv => kv.2.mode == mode)).map (·.1)
  keysToRemove.foldl (fun s k => endTransmission s k 0 t) st

/-- `DashboardState.clear_all_transmissions` (`state.py` lines 208-213). -/
def clearAllTransmissions (st : DashboardState) : DashboardState :=
  if st.active_transmissions.length > 0 then
    { st with active_transmissions := [] }
  else st

/-- `DashboardState.schedule_broadcast` (`state.py` lines 320-336): if a
debounced broadcast is already pending the call returns immediately;
otherwise the pending flag is set and one debounced task is created. -/
def scheduleBroadcast (st : DashboardState) : DashboardState :=
  if st.broadcast_pending then st
  else { st with broadcast_pending := true,
                 debounce_scheduled := st.debounce_scheduled + 1 }

/-- The flattened `entry.data` dict produced by the parsers: one optional
field per key that any parser ever writes.  A `.get(k)` on the dict is a
field read; a dict with every field `none` is the empty dict. -/
structure EntryData where
  event : Option String := none
  mode : Option String := none
  slot : Option Nat := none
  source_type : Option String := none
  source : Option String := none
  destination : Option String := none
  network : Option String := none
  reflector : Option String := none
  reflector_id : Option String := none
  description : Option String := none
  protocol_version : Option String := none
  error_message : Option String := none
  talkgroup : Option String := none
  source_callsign : Option String := none
  source_suffix : Option String := none
deriving DecidableEq, Repr

/-- `if not entry.data:` — emptiness of the data dict. -/
def EntryData.isEmpty (d : EntryData) : Bool :=
  d.event == none && d.mode == none && d.slot == none && d.source_type == none &&
  d.source == none && d.destination == none && d.network == none &&
  d.reflector == none && d.reflector_id == none && d.description == none &&
  d.protocol_version == none && d.error_message == none && d.talkgroup == none &&
  d.source_callsign == none && d.source_suffix == none

/-- `LogEntry` of `parsers.py`. -/
structure LogEntry where
  timestamp : TimeVal
  level : String
  message : String
  source : String
  data : EntryData := {}
deriving DecidableEq, Repr

/-- `LogMonitor.process_entry` (`monitor.py` lines 337-421).  `t` is the
wall-clock reading used for event timestamps inside the state ops.
Branches whose dict accesses use `entry.data['k']` (direct indexing) are
modelled with the parser-guaranteed key present; when absent the entry is
skipped (in Python this would raise `KeyError`, which the per-line
handler in `check_for_updates` would swallow). -/
def processEntry (st : DashboardState) (entry : LogEntry) (t : Nat) :
    DashboardState :=
  if entry.data.isEmpty then st
  else
    match entry.data.event with
    | some "mode_change" =>
      let mode := entry.data.mode.getD "IDLE"
      let st := updateMode st mode t
      if mode = "IDLE" then clearAllTransmissions st else st
    | some "network_connected" =>
      match entry.data.network with
      | some n => updateNetworkStatus st n (.bool true) none t
      | none => st
    | some "network_disconnected" =>
      match entry.data.network with
      | some n => updateNetworkStatus st n (.bool false) none t
      | none => st
    | some "ysf_reflector_linked" =>
      let reflector := entry.data.reflector.getD "Unknown"
      updateNetworkStatus st "YSF Network" (.bool true) (some reflector) t
    | some "ysf_network_disconnected" =>
      updateNetworkStatus st "YSF Network" (.bool false) none t
    | some "p25_reflector_linked" =>
      let reflector := entry.data.reflector.getD "Unknown"
      updateNetworkStatus st "Network" (.bool true) (some reflector) t
    | some "dmr_mmdvm_connected" =>
      updateNetworkStatus st "DMR-MMDVM" (.bool true) none t
    | some "dmr_network_connected" =>
      let network := entry.data.network.getD "Unknown"
      let st := updateNetworkStatus st ("DMR-" ++ network) (.bool true) none t
      updateNetworkStatus st "DMR" (.bool true) none t
    | some "dmr_network_disconnected" =>
      let network := entry.data.network.getD "Unknown"
      let st := updateNetworkStatus st ("DMR-" ++ network) (.bool false) none t
      updateNetworkStatus st "DMR" (.bool false) none t
    | some ev =>
      if ev ∈ ["dmr_rx", "dstar_rx", "ysf_rx", "p25_rx", "nxdn_rx", "fm_rx"] then
        let tx : Transmission :=
          { timestamp := entry.timestamp
            mode := entry.data.mode.getD "Unknown"
            source := entry.data.source.getD "Unknown"
            destination := entry.data.destination.getD "Unknown"
            slot := entry.data.slot.getD 0
            network := entry.data.network.getD ""
            active := true }
        addTransmission st tx
      else if ev ∈ ["dmr_end", "dstar_end", "ysf_end", "p25_end", "nxdn_end"] then
        match entry.data.mode with
        | some mode => endTransmissionByMode st mode t
        | none => st
      else if ev = "modem_info" then
        { st with status := { st.status with
            modem_connected := true,
            modem_description := entry.data.description.getD "" } }
      else st
    | none => st

/-- Python `str.isspace` characters relevant to `strip()` (ASCII). -/
def isPySpace (c : Char) : Bool :=
  c == ' ' || c == '\t' || c == '\n' || c == '\r' || c == '\x0b' || c == '\x0c'

/-- Python `str.strip()`. -/
def pyStrip (s : String) : String :=
  ⟨((s.data.dropWhile isPySpace).reverse.dropWhile isPySpace).reverse⟩

/-- Python `needle in haystack` substring test. -/
def strContains (haystack needle : String) : Bool :=
  (List.range (haystack.length + 1)).any
    (fun i => needle.data.isPrefixOf (haystack.data.drop i))

/-- `state_to_find` is a Python dict from fact name to found flag. -/
abbrev Targets : Type := List (String × Bool)

/-- `all(state_to_find.values())` — true on the empty dict. -/
def allFound (tg : Targets) : Bool := tg.all (·.2)

/-- `not state_to_find.get(k)` — absent keys read as falsy `None`. -/
def targetUnmet (tg : Targets) (k : String) : Bool :=
  !((dictGet? tg k).getD false)

/-- `LogMonitor._get_state_targets` (`monitor.py` lines 127-144). -/
def getStateTargets (name : String) : Targets :=
  let tg : Targets := []
  let tg := if strContains (pyLower name) "mmdvm" then dictSet tg "current_mode" false else tg
  if strContains name "DMRGateway" then
    dictSet (dictSet tg "dmr_mmdvm_connection" false) "dmr_network_connection" false
  else if strContains name "P25Gateway" then dictSet tg "p25_reflector" false
  else if strContains name "YSFGateway" then dictSet tg "ysf_reflector" false
  else tg

/-- `LogMonitor._process_state_entry` (`monitor.py` lines 195-251).
Returns the new dashboard state, the new target map and the "found
something useful" flag. -/
def processStateEntry (st : DashboardState) (tg : Targets) (entry : LogEntry)
    (t : Nat) : DashboardState × Targets × Bool :=
  if entry.data.isEmpty then (st, tg, false)
  else
    let ev := entry.data.event
    if ev == some "mode_change" && targetUnmet tg "current_mode" then
      let mode := entry.data.mode.getD "IDLE"
      (updateMode st mode t, dictSet tg "current_mode" true, true)
    else if ev == some "dmr_mmdvm_connected" && targetUnmet tg "dmr_mmdvm_connection" then
      (updateNetworkStatus st "DMR-MMDVM" (.bool true) none t,
       dictSet tg "dmr_mmdvm_connection" true, true)
    else if ev == some "dmr_network_connected" && targetUnmet tg "dmr_network_connection" then
      let network := entry.data.network.getD "Unknown"
      let st := updateNetworkStatus st ("DMR-" ++ network) (.bool true) none t
      let st := updateNetworkStatus st "DMR" (.bool true) none t
      (st, dictSet tg "dmr_network_connection" true, true)
    else if ev == some "dmr_network_disconnected" && targetUnmet tg "dmr_network_connection" then
      let network := entry.data.network.getD "Unknown"
      let st := updateNetworkStatus st ("DMR-" ++ network) (.bool false) none t
      let st := updateNetworkStatus st "DMR" (.bool false) none t
      (st, dictSet tg "dmr_network_connection" true, true)
    else if ev == some "p25_reflector_linked" && targetUnmet tg "p25_reflector" then
      let reflector := entry.data.reflector.getD "Unknown"
      (updateNetworkStatus st "Network" (.bool true) (some reflector) t,
       dictSet tg "p25_reflector" true, true)
    else if ev == some "ysf_reflector_linked" && targetUnmet tg "ysf_reflector" then
      let reflector := entry.data.reflector.getD "Unknown"
      (updateNetworkStatus st "YSF Network" (.bool true) (some reflector) t,
       dictSet tg "ysf_reflector" true, true)
    else if ev == some "ysf_network_disconnected" && targetUnmet tg "ysf_reflector" then
      (updateNetworkStatus st "YSF Network" (.bool false) none t,
       dictSet tg "ysf_reflector" true, true)
    else (st, tg, false)

/-- The line-scanning loop of `LogMonitor._scan_for_state` (`monitor.py`
lines 170-187), on the already reversed line list.  The parser object is
modelled as a pure parse function (parser-object state never affects a
parse result; see the determinism theorem for claim C4).  The returned
`Nat` is `found_count`. -/
def scanLines (parse : Option (String → Option LogEntry)) (t : Nat) :
    List String → DashboardState → Targets → Nat →
    DashboardState × Targets × Nat
  | [], st, tg, found => (st, tg, found)
  | l :: ls, st, tg, found =>
    if pyStrip l = "" then scanLines parse t ls st tg found
    else if allFound tg then (st, tg, found)
    else
      match parse with
      | none => scanLines parse t ls st tg found
      | some p =>
        match p (pyStrip l) with
        | some entry =>
          let r := processStateEntry st tg entry t
          scanLines parse t ls r.1 r.2.1 (if r.2.2 then found + 1 else found)
        | none => scanLines parse t ls st tg found

/-- `LogMonitor._scan_for_state` (`monitor.py` lines 146-189): keep the
last `lookback` lines (a Python `lines[-lookback:]` when `lookback` is
truthy), reverse, and run the scanning loop. -/
def scanForState (parse : Option (String → Option LogEntry)) (t : Nat)
    (lines : List String) (lookback : Nat) (st : DashboardState)
    (tg : Targets) : DashboardState × Targets × Nat :=
  if lines = [] then (st, tg, 0)
  else
    let lines :=
      if lookback ≠ 0 then
        if lookback < lines.length then lines.drop (lines.length - lookback) else lines
      else lines
    scanLines parse t lines.reverse st tg 0

/-- The day loop of `LogMonitor.parse_recent_entries` (`monitor.py` lines
81-101).  `files d` is the content (line list) of the dated log file for
`days_back = d`, or `none` when that file does not exist; this folds the
date arithmetic, `re.sub` filename substitution and `aiofiles` read into
one filesystem view.  The returned list records, in order, the `days_back`
values whose file was opened and scanned. -/
def dayLoop (parse : Option (String → Option LogEntry)) (t : Nat)
    (files : Nat → Option (List String)) (lookback : Nat) :
    List Nat → DashboardState → Targets →
    DashboardState × Targets × Nat × List Nat
  | [], st, tg => (st, tg, 0, [])
  | d :: ds, st, tg =>
    if allFound tg then (st, tg, 0, [])
    else
      match files d with
      | none => dayLoop parse t files lookback ds st tg
      | some lines =>
        let r := scanForState parse t lines lookback st tg
        let q := dayLoop parse t files lookback ds r.1 r.2.1
        (q.1, q.2.1, r.2.2 + q.2.2.1, d :: q.2.2.2)

/-- `LogMonitor._mark_unknown_state` (`monitor.py` lines 114-125).  The
`dmr_network_connection` branch is an explicit `pass`; the facts
`current_mode` and `dmr_mmdvm_connection` have no branch at all. -/
def markUnknownState (st : DashboardState) (unfound : List String) (t : Nat) :
    DashboardState :=
  let st := st  -- if 'dmr_network_connection' in unfound_items: pass
  let st := if unfound.contains "ysf_reflector" then
      updateNetworkStatus st "YSF-Reflector" (.str "unknown") none t
    else st
  if unfound.contains "p25_reflector" then
    updateNetworkStatus st "P25-Reflector" (.str "unknown") none t
  else st

/-- `LogMonitor.parse_recent_entries` (`monitor.py` lines 68-112): build
the target set from the monitor name, walk today plus up to 13 earlier
days, then mark whatever is still unfound as unknown.  The default
`lookback_lines` at the call site in `start` is 5000. -/
def parseRecentEntries (name : String)
    (parse : Option (String → Option LogEntry))
    (files : Nat → Option (List String)) (lookback : Nat)
    (st : DashboardState) (t : Nat) :
    DashboardState × Targets × Nat × List Nat :=
  let tg0 := getStateTargets name
  let r := dayLoop parse t files lookback (List.range 14) st tg0
  let unfound := (r.2.1.filter (fun kv => !kv.2)).map (·.1)
  let st := if unfound ≠ [] then markUnknownState r.1 unfound t else r.1
  (st, r.2.1, r.2.2.1, r.2.2.2)

/-- True when the ten characters starting here have the shape
`\d{4}-\d{2}-\d{2}` (the regex of `_check_log_rotation`). -/
def dateShapeAt : List Char → Bool
  | y1 :: y2 :: y3 :: y4 :: s1 :: m1 :: m2 :: s2 :: d1 :: d2 :: _ =>
    y1.isDigit && y2.isDigit && y3.isDigit && y4.isDigit && s1 == '-' &&
    m1.isDigit && m2.isDigit && s2 == '-' && d1.isDigit && d2.isDigit
  | _ => false

/-- `re.search(r'(\d{4}-\d{2}-\d{2})', s)` — the leftmost date-shaped
substring, if any. -/
def extractDate (s : String) : Option String :=
  ((List.range s.length).find? (fun i => dateShapeAt (s.data.drop i))).map
    (fun i => ⟨(s.data.drop i).take 10⟩)

/-- The mutable per-monitor fields of `LogMonitor` used by the tail loop. -/
structure TailMonitor where
  path : String
  last_position : Nat
  last_check_time : Nat
deriving DecidableEq, Repr

/-- `LogMonitor._check_log_rotation` (`monitor.py` lines 253-281): if the
path carries a date and today's dated file exists, switch to it and reset
the cursor to 0.  Returns the monitor and whether a switch happened.
`fs` maps a path to the file's byte content (`none` = does not exist). -/
def checkLogRotation (fs : String → Option (List Char)) (today : String)
    (mon : TailMonitor) : TailMonitor × Bool :=
  match extractDate mon.path with
  | none => (mon, false)
  | some oldDate =>
    if oldDate = today then (mon, false)
    else
      let newPath := mon.path.replace oldDate today
      if (fs newPath).isSome then
        ({ mon with path := newPath, last_position := 0 }, true)
      else (mon, false)

/-- Helper for `splitNewlines`: accumulate the current line until a
newline boundary. -/
def splitNewlinesAux : List Char → List Char → List String
  | [], acc => if acc = [] then [] else [(⟨acc⟩ : String)]
  | c :: cs, acc =>
    if c = '\n' then (⟨acc⟩ : String) :: splitNewlinesAux cs []
    else splitNewlinesAux cs (acc ++ [c])

/-- `readlines()` of the bytes after the seek position: split at newline
boundaries (line terminators are stripped; every line is `strip()`ed by
the caller anyway). -/
def splitNewlines (cs : List Char) : List String :=
  splitNewlinesAux cs []

/-- The monitor names for which `check_for_updates` calls
`state.add_log_entry(line)` (`monitor.py` line 320). -/
def mmdvmNames : List String := ["MMDVM", "mmdvm", "MMDVMHost"]

/-- The methods `DashboardState` actually defines (`state.py` lines
63-368).  `add_log_entry` is not among them, so the attribute lookup
`state.add_log_entry` raises `AttributeError`. -/
def dashboardStateMethods : List String :=
  ["update_mode", "update_network_status", "add_transmission",
   "end_transmission", "end_transmission_by_mode", "clear_all_transmissions",
   "add_event", "update_expected_state", "broadcast_status_update",
   "schedule_broadcast", "get_recent_calls", "get_events",
   "get_active_transmissions", "get_status"]

/-- The per-line loop of `check_for_updates` (`monitor.py` lines
314-332).  Returns the dashboard state as mutated so far, the uncaught
exception text if one escaped the loop (only the `state.add_log_entry`
attribute lookup can do that; per-line parse errors are swallowed by the
inner `try`), and the number of parsed entries applied via
`process_entry`. -/
def processLines (name : String) (parse : Option (String → Option LogEntry))
    (t : Nat) : List String → DashboardState →
    DashboardState × Option String × Nat
  | [], st => (st, none, 0)
  | l :: ls, st =>
    let l := pyStrip l
    if l = "" then processLines name parse t ls st
    else if mmdvmNames.contains name && !(dashboardStateMethods.contains "add_log_entry") then
      -- `state.add_log_entry(line)` raises before the line is parsed
      (st, some "AttributeError: 'DashboardState' object has no attribute 'add_log_entry'", 0)
    else
      match parse with
      | none => processLines name parse t ls st
      | some p =>
        match p l with
        | some entry =>
          let r := processLines name parse t ls (processEntry st entry t)
          (r.1, r.2.1, r.2.2 + 1)
        | none => processLines name parse t ls st

/-- Instrumentation of one `check_for_updates` poll: which resets fired,
where the read started, whether the outer handler caught an exception,
and how many entries were applied. -/
structure ReadInfo where
  rotatedSwitch : Bool := false
  shrinkReset : Bool := false
  readStart : Option Nat := none
  errorCaught : Bool := false
  appliedEntries : Nat := 0
deriving DecidableEq, Repr

/-- `LogMonitor.check_for_updates` (`monitor.py` lines 283-335).  `now`
is the UTC clock reading in seconds, `today` the current UTC date string;
`fs` is the filesystem snapshot for this poll.  The outer `try/except`
catches any exception escaping the line loop, so the function always
returns; mutations already applied before the exception persist. -/
def checkForUpdates (fs : String → Option (List Char)) (today : String)
    (now : Nat) (name : String) (parse : Option (String → Option LogEntry))
    (mon : TailMonitor) (st : DashboardState) :
    TailMonitor × DashboardState × ReadInfo :=
  let rot :=
    if 60 < now - mon.last_check_time then
      checkLogRotation fs today { mon with last_check_time := now }
    else (mon, false)
  let mon1 := rot.1
  let rotated := rot.2
  match fs mon1.path with
  | none => (mon1, st, { rotatedSwitch := rotated })
  | some content =>
    let currentSize := content.length
    let mon2 :=
      if currentSize < mon1.last_position then { mon1 with last_position := 0 }
      else mon1
    let shrink := decide (currentSize < mon1.last_position)
    if currentSize = mon2.last_position then
      (mon2, st, { rotatedSwitch := rotated, shrinkReset := shrink })
    else
      let readStart := mon2.last_position
      let newData := content.drop mon2.last_position
      let r := processLines name parse now (splitNewlines newData) st
      ({ mon2 with last_position := currentSize }, r.1,
       { rotatedSwitch := rotated, shrinkReset := shrink,
         readStart := some readStart, errorCaught := r.2.1.isSome,
         appliedEntries := r.2.2 })

/-! ### The pattern layer of `parsers.py`

Each `re` pattern used by the parsers is transliterated into a token
list; `matchToks` implements Python's backtracking semantics for exactly
the constructs those patterns use (literals, greedy character-class
`+`/`*`, lazy `(.+?)`, alternation tried left to right, optional group,
end anchor), and `reSearch` implements `re.search`'s leftmost-match rule.
Backtracking over the length of a greedy or lazy repetition is expressed
as a search over the candidate lengths (longest first for greedy tokens,
shortest first for lazy ones), which is exactly the order in which the
Python engine tries them. -/

/-- One token of a transliterated pattern.  `optLitWs l` is the optional
group `(?:L\s*)?` (used for `(?:TG\s*)?`): greedy, so the branch with the
literal is tried first. -/
inductive Tok where
  | lit : List Char → Tok
  | capPlus : (Char → Bool) → Tok
  | capOne : (Char → Bool) → Tok
  | capLazy : Tok
  | capAlt : List (List Char) → Tok
  | ncAlt : List (List Char) → Tok
  | wsPlus : Tok
  | wsStar : Tok
  | optLitWs : List Char → Tok
  | eos : Tok

/-- `.` in a pattern (no DOTALL): any character except a newline. -/
def clsAny (c : Char) : Bool := c != '\n'

/-- `[A-Z0-9]`. -/
def clsUpperDigit (c : Char) : Bool := ('A' ≤ c && c ≤ 'Z') || c.isDigit

/-- `[A-Z0-9\s]`. -/
def clsUpperDigitWs (c : Char) : Bool := clsUpperDigit c || isPySpace c

/-- `\d`. -/
def clsDigit (c : Char) : Bool := c.isDigit

/-- Match a token list against the input, returning the captures.  A
match may end before the input does (`re.search` semantics).  Greedy
repetitions try the longest candidate first and backtrack downwards;
lazy ones try the shortest first; alternations try alternatives left to
right — the backtracking order of the Python engine. -/
def matchToks : List Tok → List Char → Option (List (List Char))
  | [], _ => some []
  | .lit l :: ts, s =>
    if l.isPrefixOf s then matchToks ts (s.drop l.length) else none
  | .capPlus p :: ts, s =>
    let m := (s.takeWhile p).length
    (List.range m).findSome? (fun i =>
      (matchToks ts (s.drop (m - i))).map (s.take (m - i) :: ·))
  | .capOne p :: ts, s =>
    match s with
    | c :: rest => if p c then (matchToks ts rest).map ([c] :: ·) else none
    | [] => none
  | .capLazy :: ts, s =>
    let m := (s.takeWhile clsAny).length
    (List.range m).findSome? (fun i =>
      (matchToks ts (s.drop (i + 1))).map (s.take (i + 1) :: ·))
  | .capAlt alts :: ts, s =>
    alts.findSome? (fun a =>
      if a.isPrefixOf s then (matchToks ts (s.drop a.length)).map (a :: ·)
      else none)
  | .ncAlt alts :: ts, s =>
    alts.findSome? (fun a =>
      if a.isPrefixOf s then matchToks ts (s.drop a.length) else none)
  | .wsPlus :: ts, s =>
    let m := (s.takeWhile isPySpace).length
    (List.range m).findSome? (fun i => matchToks ts (s.drop (m - i)))
  | .wsStar :: ts, s =>
    let m := (s.takeWhile isPySpace).length
    (List.range (m + 1)).findSome? (fun i => matchToks ts (s.drop (m - i)))
  | .optLitWs l :: ts, s =>
    (if l.isPrefixOf s then
      let s2 := s.drop l.length
      let m := (s2.takeWhile isPySpace).length
      (List.range (m + 1)).findSome? (fun i => matchToks ts (s2.drop (m - i)))
    else none).orElse (fun _ => matchToks ts s)
  | .eos :: ts, s => if s = [] || s = ['\n'] then matchToks ts s else none

/-- `re.search(pattern, s)`: leftmost position whose match succeeds. -/
def reSearch (toks : List Tok) (s : String) : Option (List String) :=
  let cs := s.data
  ((List.range (cs.length + 1)).findSome?
      (fun i => matchToks toks (cs.drop i))).map
    (·.map (fun l => (⟨l⟩ : String)))

/-- Literal pattern text. -/
def litT (s : String) : Tok := .lit s.data

/-- `int(...)` on a decimal capture. -/
def natOfDigits (s : String) : Nat :=
  s.data.foldl (fun a c => a * 10 + (c.toNat - 48)) 0

/-- Python `datetime` accepts the captured timestamp iff these bounds
hold (`strptime` raises `ValueError` otherwise and the parser falls back
to `datetime.now()`). -/
def isLeap (y : Nat) : Bool := y % 4 == 0 && (y % 100 != 0 || y % 400 == 0)

/-- Days in a month of the proleptic Gregorian calendar. -/
def daysInMonth (y m : Nat) : Nat :=
  if m == 2 then (if isLeap y then 29 else 28)
  else if m == 4 || m == 6 || m == 9 || m == 11 then 30
  else 31

/-- Whether `datetime.strptime(ts, '%Y-%m-%d %H:%M:%S.%f')` succeeds on
the captured fields. -/
def validTs (f : Ts) : Bool :=
  1 ≤ f.year && 1 ≤ f.month && f.month ≤ 12 && 1 ≤ f.day &&
  f.day ≤ daysInMonth f.year f.month && f.hour ≤ 23 && f.minute ≤ 59 &&
  f.second ≤ 59

/-- The level characters accepted by `TIMESTAMP_PATTERN`. -/
def levelChars : List Char := ['M', 'D', 'I', 'S', 'E', 'W', 'F']

/-- `re.match(TIMESTAMP_PATTERN, line)`: the anchored header regex
`([MDISEWF]):\s+(\d{4}-\d{2}-\d{2}\s+\d{2}:\d{2}:\d{2}\.\d{3})\s+(.*)`
shared by all four parsers.  Returns the level character, the timestamp
fields, and the message. -/
def parseHeader (line : String) : Option (Char × Ts × String) :=
  match line.data with
  | c :: ':' :: rest =>
    if levelChars.contains c then
      let ws1 := (rest.takeWhile isPySpace).length
      if ws1 = 0 then none
      else
        let r := rest.drop ws1
        headerDate c r
    else none
  | _ => none
where
  /-- The date-time block and trailing `\s+(.*)`. -/
  headerDate (c : Char) (r : List Char) : Option (Char × Ts × String) :=
    match fixedDigits 4 r with
    | none => none
    | some (year, r) =>
    match r with
    | '-' :: r =>
      match fixedDigits 2 r with
      | none => none
      | some (month, r) =>
      match r with
      | '-' :: r =>
        match fixedDigits 2 r with
        | none => none
        | some (day, r) =>
        let wsMid := (r.takeWhile isPySpace).length
        if wsMid = 0 then none
        else
          let r := r.drop wsMid
          match fixedDigits 2 r with
          | none => none
          | some (hour, r) =>
          match r with
          | ':' :: r =>
            match fixedDigits 2 r with
            | none => none
            | some (minute, r) =>
            match r with
            | ':' :: r =>
              match fixedDigits 2 r with
              | none => none
              | some (second, r) =>
              match r with
              | '.' :: r =>
                match fixedDigits 3 r with
                | none => none
                | some (millis, r) =>
                let wsEnd := (r.takeWhile isPySpace).length
                if wsEnd = 0 then none
                else
                  let message := (r.drop wsEnd).takeWhile clsAny
                  some (c, ⟨year, month, day, hour, minute, second, millis⟩,
                        (⟨message⟩ : String))
              | _ => none
            | _ => none
          | _ => none
      | _ => none
    | _ => none
  /-- Exactly `n` digits (value and remainder). -/
  fixedDigits (n : Nat) (cs : List Char) : Option (Nat × List Char) :=
    let run := cs.takeWhile Char.isDigit
    if n ≤ run.length then
      some (((cs.take n).foldl (fun a ch => a * 10 + (ch.toNat - 48)) 0), cs.drop n)
    else none

/-! #### `MMDVMHostParser` patterns (`parsers.py` lines 37-78) -/

/-- `MODE_SET_PATTERN = r'Mode set to (.+)'`. -/
def modeSetToks : List Tok := [litT "Mode set to ", .capPlus clsAny]

/-- `DMR_RX_PATTERN`. -/
def dmrRxToks : List Tok :=
  [litT "DMR Slot ", .capOne clsDigit, litT ", received ",
   .capAlt ["network".data, "RF".data], litT " voice header from ",
   .capPlus clsUpperDigit, litT " to TG", .wsStar, .capPlus clsDigit]

/-- `DMR_END_PATTERN`. -/
def dmrEndToks : List Tok :=
  [litT "DMR Slot ", .capOne clsDigit, litT ", received ",
   .capAlt ["network".data, "RF".data],
   litT " end of voice transmission from ", .capPlus clsUpperDigit,
   litT " to TG", .wsStar, .capPlus clsDigit]

/-- `DSTAR_RX_PATTERN`. -/
def dstarRxToks : List Tok :=
  [litT "D-Star, received ", .ncAlt ["header".data, "data".data],
   litT " from ", .capPlus clsUpperDigit, .wsPlus, litT "/",
   .capPlus clsUpperDigit, .wsPlus, litT "to", .wsPlus,
   .capPlus clsUpperDigit]

/-- `DSTAR_END_PATTERN`. -/
def dstarEndToks : List Tok := [litT "D-Star, end of transmission"]

/-- `YSF_RX_PATTERN`. -/
def ysfRxToks : List Tok :=
  [litT "YSF, received ", .capAlt ["network".data, "RF".data],
   litT " header from ", .capPlus clsUpperDigitWs, .wsPlus,
   litT "to DG-ID", .wsPlus, .capPlus clsDigit]

/-- `YSF_END_PATTERN`. -/
def ysfEndToks : List Tok :=
  [litT "YSF, received ", .capAlt ["network".data, "RF".data],
   litT " end of transmission from ", .capPlus clsUpperDigitWs, .wsPlus,
   litT "to DG-ID", .wsPlus, .capPlus clsDigit]

/-- `P25_RX_PATTERN`. -/
def p25RxToks : List Tok :=
  [litT "P25, received ", .capAlt ["network".data, "RF".data], litT " ",
   .ncAlt ["voice transmission".data, "header".data], litT " from ",
   .capPlus clsUpperDigit, litT " to TG", .wsStar, .capPlus clsDigit]

/-- `P25_HEADER_PATTERN`. -/
def p25HeaderToks : List Tok :=
  [litT "P25, received ", .capAlt ["network".data, "RF".data],
   litT " header"]

/-- `P25_END_PATTERN`. -/
def p25EndToks : List Tok :=
  [litT "P25, received ", .capAlt ["network".data, "RF".data],
   litT " end of voice transmission from ", .capPlus clsUpperDigit,
   litT " to TG", .wsStar, .capPlus clsDigit]

/-- `NXDN_RX_PATTERN`. -/
def nxdnRxToks : List Tok :=
  [litT "NXDN, received ", .capAlt ["network".data, "RF".data], litT " ",
   .ncAlt ["voice".data, "data".data], litT " ",
   .ncAlt ["header".data, "transmission".data], litT " from ",
   .capPlus clsUpperDigit, litT " to ", .optLitWs "TG".data,
   .capPlus clsDigit]

/-- `NXDN_END_PATTERN`. -/
def nxdnEndToks : List Tok :=
  [litT "NXDN, received ", .capAlt ["network".data, "RF".data],
   litT " end of transmission from ", .capPlus clsUpperDigit,
   litT " to ", .optLitWs "TG".data, .capPlus clsDigit]

/-- `FM_RX_PATTERN`. -/
def fmRxToks : List Tok :=
  [litT "FM, received ", .ncAlt ["header".data, "transmission".data]]

/-- `NETWORK_CONNECTED_PATTERN = r'(.+) Network, connected'`. -/
def networkConnectedToks : List Tok :=
  [.capPlus clsAny, litT " Network, connected"]

/-- `NETWORK_DISCONNECTED_PATTERN`. -/
def networkDisconnectedToks : List Tok :=
  [.capPlus clsAny, litT " Network, ",
   .ncAlt ["disconnected".data, "connection lost".data]]

/-- `MODEM_STATUS_PATTERN`. -/
def modemStatusToks : List Tok :=
  [litT "MMDVM protocol version: ", .capPlus clsDigit,
   litT ", description: ", .capPlus clsAny]

/-- `MODEM_ERROR_PATTERN = r'Error: (.+)'`. -/
def modemErrorToks : List Tok := [litT "Error: ", .capPlus clsAny]

/-- The mutable fields of a `MMDVMHostParser` object. -/
structure MParserState where
  current_mode : String := "IDLE"
  network_status : List (String × Bool) := []
deriving DecidableEq, Repr

/-- The level-character map of `MMDVMHostParser.parse_line`
(`.get(level_char, 'INFO')`). -/
def levelMapMMDVM (c : Char) : String :=
  if c = 'M' then "INFO" else if c = 'D' then "DEBUG"
  else if c = 'I' then "INFO" else if c = 'S' then "INFO"
  else if c = 'E' then "ERROR" else if c = 'W' then "WARNING"
  else if c = 'F' then "FATAL" else "INFO"

/-- `MMDVMHostParser._parse_message` (`parsers.py` lines 117-273): the
`elif` chain over the patterns, first match wins.  Returns the mutated
parser object and the structured `entry.data`. -/
def parseMessageM (ps : MParserState) (message : String) :
    MParserState × EntryData :=
  match reSearch modeSetToks message with
  | some caps =>
    let ps := { ps with current_mode := caps.getD 0 "" }
    (ps, { event := some "mode_change", mode := some ps.current_mode })
  | none =>
  match reSearch dmrRxToks message with
  | some caps =>
    (ps, { event := some "dmr_rx", slot := some (natOfDigits (caps.getD 0 "")),
           source_type := some (caps.getD 1 ""), source := some (caps.getD 2 ""),
           destination := some (caps.getD 3 ""), mode := some "DMR" })
  | none =>
  match reSearch dmrEndToks message with
  | some caps =>
    (ps, { event := some "dmr_end", slot := some (natOfDigits (caps.getD 0 "")),
           source_type := some (caps.getD 1 ""), source := some (caps.getD 2 ""),
           destination := some (caps.getD 3 ""), mode := some "DMR" })
  | none =>
  match reSearch dstarRxToks message with
  | some caps =>
    (ps, { event := some "dstar_rx", source_callsign := some (caps.getD 0 ""),
           source_suffix := some (caps.getD 1 ""),
           destination := some (caps.getD 2 ""), mode := some "D-Star" })
  | none =>
  match reSearch dstarEndToks message with
  | some _ => (ps, { event := some "dstar_end", mode := some "D-Star" })
  | none =>
  match reSearch ysfRxToks message with
  | some caps =>
    (ps, { event := some "ysf_rx", source_type := some (caps.getD 0 ""),
           source := some (pyStrip (caps.getD 1 "")),
           destination := some (caps.getD 2 ""), mode := some "YSF" })
  | none =>
  match reSearch ysfEndToks message with
  | some caps =>
    (ps, { event := some "ysf_end", source_type := some (caps.getD 0 ""),
           source := some (pyStrip (caps.getD 1 "")),
           destination := some (caps.getD 2 ""), mode := some "YSF" })
  | none =>
  match reSearch p25RxToks message with
  | some caps =>
    (ps, { event := some "p25_rx", source_type := some (caps.getD 0 ""),
           source := some (caps.getD 1 ""),
           destination := some (caps.getD 2 ""), mode := some "P25" })
  | none =>
  match reSearch p25HeaderToks message with
  | some caps =>
    (ps, { event := some "p25_rx", source_type := some (caps.getD 0 ""),
           source := some "Unknown", destination := some "Unknown",
           mode := some "P25" })
  | none =>
  match reSearch p25EndToks message with
  | some caps =>
    (ps, { event := some "p25_end", source_type := some (caps.getD 0 ""),
           source := some (caps.getD 1 ""),
           destination := some (caps.getD 2 ""), mode := some "P25" })
  | none =>
  match reSearch nxdnRxToks message with
  | some caps =>
    (ps, { event := some "nxdn_rx", source_type := some (caps.getD 0 ""),
           source := some (caps.getD 1 ""),
           destination := some (caps.getD 2 ""), mode := some "NXDN" })
  | none =>
  match reSearch nxdnEndToks message with
  | some caps =>
    (ps, { event := some "nxdn_end", source_type := some (caps.getD 0 ""),
           source := some (caps.getD 1 ""),
           destination := some (caps.getD 2 ""), mode := some "NXDN" })
  | none =>
  match reSearch fmRxToks message with
  | some _ => (ps, { event := some "fm_rx", mode := some "FM" })
  | none =>
  match reSearch networkConnectedToks message with
  | some caps =>
    let network := caps.getD 0 ""
    ({ ps with network_status := dictSet ps.network_status network true },
     { event := some "network_connected", network := some network })
  | none =>
  match reSearch networkDisconnectedToks message with
  | some caps =>
    let network := caps.getD 0 ""
    ({ ps with network_status := dictSet ps.network_status network false },
     { event := some "network_disconnected", network := some network })
  | none =>
  match reSearch modemStatusToks message with
  | some caps =>
    (ps, { event := some "modem_info",
           protocol_version := some (caps.getD 0 ""),
           description := some (caps.getD 1 "") })
  | none =>
  match reSearch modemErrorToks message with
  | some caps =>
    (ps, { event := some "error", error_message := some (caps.getD 0 "") })
  | none => (ps, {})

/-- `MMDVMHostParser.parse_line` (`parsers.py` lines 84-115).  `now` is
the wall clock reading that `datetime.now()` would return if `strptime`
rejects the captured timestamp. -/
def parseLineM (ps : MParserState) (line : String) (now : Nat) :
    MParserState × Option LogEntry :=
  match parseHeader line with
  | none => (ps, none)
  | some (levelChar, tsf, message) =>
    let level := levelMapMMDVM levelChar
    let timestamp := if validTs tsf then TimeVal.fields tsf else TimeVal.clock now
    let r := parseMessageM ps message
    (r.1, some { timestamp := timestamp, level := level, message := message,
                 source := "mmdvmhost", data := r.2 })

/-! #### `YSFGatewayParser` patterns (`parsers.py` lines 346-412) -/

/-- `LINKED_PATTERN = r'Linked to (.+?)(?:\s+)?$'`.  The greedy optional
whitespace group `(?:\s+)?` matches exactly the same strings in the same
preference order as `\s*`, so it is transliterated as `wsStar`. -/
def ysfLinkedToks : List Tok :=
  [litT "Linked to ", .capLazy, .wsStar, .eos]

/-- `LINK_MMDVM_PATTERN`. -/
def ysfLinkMmdvmToks : List Tok := [litT "Link successful to MMDVM"]

/-- `RECONNECT_PATTERN = r'Automatic \(re-\)connection to (\d+) - "(.+?)"'`. -/
def ysfReconnectToks : List Tok :=
  [litT "Automatic (re-)connection to ", .capPlus clsDigit,
   litT " - \"", .capLazy, litT "\""]

/-- `REFLECTOR_PATTERN = r'Connect to (.+) has been requested'`. -/
def ysfReflectorToks : List Tok :=
  [litT "Connect to ", .capPlus clsAny, litT " has been requested"]

/-- `DISCONNECT_PATTERN`. -/
def ysfDisconnectToks : List Tok := [litT "Disconnect has been requested"]

/-- The level map of `YSFGatewayParser.parse_line` (no `S`/`F` entries;
`.get` default `'INFO'`). -/
def levelMapYSF (c : Char) : String :=
  if c = 'M' then "INFO" else if c = 'D' then "DEBUG"
  else if c = 'I' then "INFO" else if c = 'E' then "ERROR"
  else if c = 'W' then "WARNING" else "INFO"

/-- The message branch chain of `YSFGatewayParser.parse_line`
(`parsers.py` lines 375-410). -/
def parseMessageY (message : String) : EntryData :=
  match reSearch ysfLinkedToks message with
  | some caps =>
    { event := some "ysf_linked", reflector := some (pyStrip (caps.getD 0 "")) }
  | none =>
  match reSearch ysfLinkMmdvmToks message with
  | some _ => { event := some "ysf_mmdvm_connected" }
  | none =>
  match reSearch ysfReconnectToks message with
  | some caps =>
    { event := some "ysf_reconnected", reflector_id := some (caps.getD 0 ""),
      reflector := some (pyStrip (caps.getD 1 "")) }
  | none =>
  match reSearch ysfReflectorToks message with
  | some caps =>
    { event := some "ysf_connect_requested",
      reflector := some (pyStrip (caps.getD 0 "")) }
  | none =>
  match reSearch ysfDisconnectToks message with
  | some _ => { event := some "ysf_disconnect_requested" }
  | none => {}

/-- `YSFGatewayParser.parse_line` (`parsers.py` lines 358-412): the
parser object has no mutable fields, so the embedding is a function of
the line and the clock fallback only. -/
def parseLineY (line : String) (now : Nat) : Option LogEntry :=
  match parseHeader line with
  | none => none
  | some (levelChar, tsf, message) =>
    let level := levelMapYSF levelChar
    let timestamp := if validTs tsf then TimeVal.fields tsf else TimeVal.clock now
    some { timestamp := timestamp, level := level, message := message,
           source := "ysfgateway", data := parseMessageY message }

/-- Whether `parse_line` would hit the `datetime.now()` fallback on this
line: the header regex matches but `strptime` rejects the timestamp. -/
def usesClock (line : String) : Bool :=
  match parseHeader line with
  | some (_, tsf, _) => !validTs tsf
  | none => false

/-! ## Helper lemmas about the dict and deque models -/

theorem dictGet?_dictSet_self {α : Type} (d : List (String × α)) (k : String)
    (v : α) : dictGet? (dictSet d k v) k = some v := by
  induction d with
  | nil => simp [dictSet, dictGet?]
  | cons kv rest ih =>
    obtain ⟨k', v'⟩ := kv
    by_cases h : k' = k <;> simp [dictSet, dictGet?, h, ih]

theorem dictGet?_dictSet_ne {α : Type} (d : List (String × α)) (k k' : String)
    (v : α) (h : k' ≠ k) : dictGet? (dictSet d k v) k' = dictGet? d k' := by
  induction d with
  | nil =>
    simp only [dictSet, dictGet?]
    rw [if_neg (fun hh => h hh.symm)]
  | cons kv rest ih =>
    obtain ⟨k0, v0⟩ := kv
    simp only [dictSet]
    by_cases h0 : k0 = k
    · rw [if_pos h0]
      subst h0
      simp only [dictGet?]
      rw [if_neg (fun hh : k0 = k' => h hh.symm),
          if_neg (fun hh : k0 = k' => h hh.symm)]
    · rw [if_neg h0]
      simp only [dictGet?]
      by_cases h1 : k0 = k'
      · rw [if_pos h1, if_pos h1]
      · rw [if_neg h1, if_neg h1]
        exact ih

theorem dictSet_dictSet {α : Type} (d : List (String × α)) (k : String)
    (v w : α) : dictSet (dictSet d k v) k w = dictSet d k w := by
  induction d with
  | nil => simp [dictSet]
  | cons kv rest ih =>
    obtain ⟨k0, v0⟩ := kv
    by_cases h : k0 = k <;> simp [dictSet, h, ih]

theorem dequeAppend_length {α : Type} (m : Nat) (xs : List α) (x : α) :
    (dequeAppend m xs x).length = min (xs.length + 1) m := by
  unfold dequeAppend
  by_cases h : m < (xs ++ [x]).length
  · rw [if_pos h]
    simp only [List.length_drop, List.length_append, List.length_singleton] at *
    omega
  · rw [if_neg h]
    simp only [List.length_append, List.length_singleton, not_lt] at *
    omega

theorem dictGet?_eq_none_iff {α : Type} (d : List (String × α)) (k : String) :
    dictGet? d k = none ↔ ∀ kv ∈ d, kv.1 ≠ k := by
  induction d with
  | nil => simp [dictGet?]
  | cons kv rest ih =>
    obtain ⟨k0, v0⟩ := kv
    by_cases h : k0 = k <;> simp [dictGet?, h, ih]

/-! ## Claim C1 — idempotence of no-op transitions in the State Store -/

/-- C1 (counterexample): applying the same `ModeChanged` event twice is
not idempotent as claimed — starting from the initial state, a second
`update_mode('DMR')` appends a second (duplicate) `mode_change` entry to
the event history and creates a second broadcast task, so the observable
event history differs and more than one broadcast is triggered. -/
theorem C1_counterexample :
    (updateMode (updateMode ({} : DashboardState) "DMR" 1) "DMR" 2).events.length = 2 ∧
    (updateMode ({} : DashboardState) "DMR" 1).events.length = 1 ∧
    (updateMode (updateMode ({} : DashboardState) "DMR" 1) "DMR" 2).broadcast_tasks = 2 ∧
    (updateMode ({} : DashboardState) "DMR" 1).broadcast_tasks = 1 := by
  decide

/-- C1 (amended): re-applying the same `ModeChanged` event, or a
`NetworkLinkChanged` event carrying the already-current value, leaves the
mode, the network map, the active-transmission set and all statistics
exactly as after the first application (no double counting), but each
application appends one more history entry (up to the 100-entry bound);
`update_mode` creates one broadcast task per application while
`update_network_status` never creates any. -/
theorem C1_noop_transitions_amended (st : DashboardState) (mode : String)
    (t1 t2 : Nat) (network : String) (connected : PyVal)
    (target : Option String) :
    ((updateMode (updateMode st mode t1) mode t2).status.current_mode =
       (updateMode st mode t1).status.current_mode ∧
     (updateMode (updateMode st mode t1) mode t2).status.networks =
       (updateMode st mode t1).status.networks ∧
     (updateMode (updateMode st mode t1) mode t2).active_transmissions =
       (updateMode st mode t1).active_transmissions ∧
     (updateMode (updateMode st mode t1) mode t2).stats_total_calls_today =
       (updateMode st mode t1).stats_total_calls_today ∧
     (updateMode (updateMode st mode t1) mode t2).stats_calls_by_mode =
       (updateMode st mode t1).stats_calls_by_mode ∧
     (updateMode (updateMode st mode t1) mode t2).stats_active_users =
       (updateMode st mode t1).stats_active_users ∧
     (updateMode (updateMode st mode t1) mode t2).events.length =
       min ((updateMode st mode t1).events.length + 1) maxEvents ∧
     (updateMode (updateMode st mode t1) mode t2).broadcast_tasks =
       (updateMode st mode t1).broadcast_tasks + 1) ∧
    ((updateNetworkStatus (updateNetworkStatus st network connected target t1)
        network connected target t2).status.networks =
       (updateNetworkStatus st network connected target t1).status.networks ∧
     (updateNetworkStatus (updateNetworkStatus st network connected target t1)
        network connected target t2).stats_total_calls_today =
       (updateNetworkStatus st network connected target t1).stats_total_calls_today ∧
     (updateNetworkStatus (updateNetworkStatus st network connected target t1)
        network connected target t2).stats_calls_by_mode =
       (updateNetworkStatus st network connected target t1).stats_calls_by_mode ∧
     (updateNetworkStatus (updateNetworkStatus st network connected target t1)
        network connected target t2).stats_active_users =
       (updateNetworkStatus st network connected target t1).stats_active_users ∧
     (updateNetworkStatus (updateNetworkStatus st network connected target t1)
        network connected target t2).events.length =
       min ((updateNetworkStatus st network connected target t1).events.length + 1)
         maxEvents ∧
     (updateNetworkStatus (updateNetworkStatus st network connected target t1)
        network connected target t2).broadcast_tasks =
       (updateNetworkStatus st network connected target t1).broadcast_tasks) := by
  constructor
  · simp [updateMode, addEvent, dequeAppend_length]
  · simp [updateNetworkStatus, addEvent, dequeAppend_length, dictSet_dictSet]

/-! ## Claim C5 — a `ModeChanged(IDLE)` event clears every active transmission -/

theorem clearAll_active (st : DashboardState) :
    (clearAllTransmissions st).active_transmissions = [] := by
  unfold clearAllTransmissions
  by_cases h : st.active_transmissions.length > 0
  · simp [h]
  · simp only [h, if_neg, if_pos, not_false_iff]
    simpa using List.length_eq_zero.mp (by omega)

/-- C5: for every dashboard state and every parsed entry carrying a
`mode_change` event whose (defaulted) mode is the idle mode `IDLE`,
`process_entry` leaves the active-transmission set empty, regardless of
the modes of the records it held. -/
theorem C5_idle_clears_all (st : DashboardState) (entry : LogEntry) (t : Nat)
    (he : entry.data.event = some "mode_change")
    (hm : entry.data.mode.getD "IDLE" = "IDLE") :
    (processEntry st entry t).active_transmissions = [] := by
  have hne : entry.data.isEmpty = false := by
    simp [EntryData.isEmpty, he]
  unfold processEntry
  rw [hne, he, hm]
  simp [clearAll_active]

/-- C5 witness: a concrete `Mode set to IDLE` entry empties a state with
two active transmissions of different modes. -/
theorem C5_idle_clears_all_witness :
    (processEntry
      { active_transmissions :=
          [("DMR_1_ALICE",
            { timestamp := .clock 0, mode := "DMR", source := "ALICE",
              destination := "1", slot := 1 }),
           ("YSF_0_BOB",
            { timestamp := .clock 0, mode := "YSF", source := "BOB",
              destination := "2", slot := 0 })] }
      { timestamp := .clock 3, level := "INFO", message := "Mode set to IDLE",
        source := "mmdvmhost",
        data := { event := some "mode_change", mode := some "IDLE" } }
      3).active_transmissions = [] :=
  C5_idle_clears_all _ _ 3 (by decide) (by decide)

/-! ## Claim C7 — network-link value invariant of `update_network_status` -/

/-- C7: after any `update_network_status` call with a boolean `connected`
argument (the declared signature), the stored value for that network is a
target string only if the call reported `connected = true` with a
non-empty target; every disconnection stores the plain boolean `false`
regardless of any prior target; other networks are untouched. -/
theorem C7_network_value_invariant (st : DashboardState) (network : String)
    (b : Bool) (target : Option String) (t : Nat) :
    (b = false →
      dictGet? (updateNetworkStatus st network (.bool b) target t).status.networks
        network = some (.bool false)) ∧
    (∀ s, dictGet? (updateNetworkStatus st network (.bool b) target t).status.networks
        network = some (.str s) →
      b = true ∧ target = some s ∧ s ≠ "") ∧
    (∀ other, other ≠ network →
      dictGet? (updateNetworkStatus st network (.bool b) target t).status.networks
        other = dictGet? st.status.networks other) := by
  refine ⟨?_, ?_, ?_⟩
  · intro hb
    subst hb
    simp [updateNetworkStatus, addEvent, PyVal.truthy, dictGet?_dictSet_self]
  · intro s hs
    simp only [updateNetworkStatus, addEvent] at hs
    rw [dictGet?_dictSet_self] at hs
    by_cases hc : (PyVal.bool b).truthy && optStrTruthy target
    · rw [if_pos hc] at hs
      simp only [PyVal.truthy, Bool.and_eq_true] at hc
      obtain ⟨hb, ht⟩ := hc
      cases target with
      | none => simp [optStrTruthy] at ht
      | some s0 =>
        simp only [optStrTruthy, Option.getD_some, Option.some.injEq,
          PyVal.str.injEq] at ht hs
        subst hs
        refine ⟨hb, rfl, ?_⟩
        simpa using ht
    · rw [if_neg hc] at hs
      cases hs
  · intro other hne
    simp only [updateNetworkStatus, addEvent]
    exact dictGet?_dictSet_ne _ _ _ _ hne

/-- C7 witness: a concrete disconnect overwrites a stored reflector
target with the plain boolean `false`. -/
theorem C7_network_value_invariant_witness :
    dictGet? (updateNetworkStatus
      { status := { networks := [("YSF Network", .str "Kansas")] } }
      "YSF Network" (.bool false) none 4).status.networks "YSF Network" =
      some (.bool false) :=
  (C7_network_value_invariant
    { status := { networks := [("YSF Network", .str "Kansas")] } }
    "YSF Network" false none 4).1 rfl

/-! ## Claim C8 — broadcasts after observable mutations -/

/-- C8 (counterexample): `update_network_status` changes observable
output (the serialized network map) but schedules no broadcast at all —
neither a debounced one nor an immediate task — and `update_mode`
broadcasts through an immediate `asyncio.create_task`, not through the
debounce window of `schedule_broadcast`. -/
theorem C8_counterexample :
    (updateNetworkStatus ({} : DashboardState) "DMR" (.bool true) none
        5).status.networks ≠ ({} : DashboardState).status.networks ∧
    (updateNetworkStatus ({} : DashboardState) "DMR" (.bool true) none
        5).broadcast_tasks = 0 ∧
    (updateNetworkStatus ({} : DashboardState) "DMR" (.bool true) none
        5).debounce_scheduled = 0 ∧
    (updateMode ({} : DashboardState) "DMR" 1).broadcast_tasks = 1 ∧
    (updateMode ({} : DashboardState) "DMR" 1).debounce_scheduled = 0 := by
  decide

/-- C8 (amended): `update_mode` and `add_transmission` each create one
immediate broadcast task inside the mutating step and never go through
the debounce window; `update_network_status` creates no broadcast of
either kind; the debounced `schedule_broadcast` is present and coalescing
(a pending window absorbs later calls, otherwise exactly one debounced
task starts) but no State Store mutation invokes it. -/
theorem C8_broadcast_amended (st : DashboardState) (mode : String) (t : Nat)
    (tx : Transmission) (network : String) (connected : PyVal)
    (target : Option String) :
    ((updateMode st mode t).broadcast_tasks = st.broadcast_tasks + 1 ∧
     (updateMode st mode t).debounce_scheduled = st.debounce_scheduled) ∧
    ((addTransmission st tx).broadcast_tasks = st.broadcast_tasks + 1 ∧
     (addTransmission st tx).debounce_scheduled = st.debounce_scheduled) ∧
    ((updateNetworkStatus st network connected target t).broadcast_tasks =
       st.broadcast_tasks ∧
     (updateNetworkStatus st network connected target t).debounce_scheduled =
       st.debounce_scheduled) ∧
    (st.broadcast_pending = true → scheduleBroadcast st = st) ∧
    (st.broadcast_pending = false →
      (scheduleBroadcast st).debounce_scheduled = st.debounce_scheduled + 1 ∧
      (scheduleBroadcast st).broadcast_pending = true) := by
  refine ⟨?_, ?_, ?_, ?_, ?_⟩
  · simp [updateMode, addEvent]
  · simp [addTransmission, addEvent]
  · simp [updateNetworkStatus, addEvent]
  · intro h
    simp [scheduleBroadcast, h]
  · intro h
    simp [scheduleBroadcast, h]

/-- C8 amended witness: at the initial state, `update_mode` creates one
immediate broadcast task, and a first `schedule_broadcast` call starts
exactly one debounced window. -/
theorem C8_broadcast_amended_witness :
    (updateMode ({} : DashboardState) "DMR" 1).broadcast_tasks =
      ({} : DashboardState).broadcast_tasks + 1 ∧
    (scheduleBroadcast ({} : DashboardState)).debounce_scheduled =
      ({} : DashboardState).debounce_scheduled + 1 ∧
    (scheduleBroadcast ({} : DashboardState)).broadcast_pending = true :=
  ⟨(C8_broadcast_amended {} "DMR" 1
      { timestamp := .clock 0, mode := "DMR", source := "A", destination := "B" }
      "DMR" (.bool true) none).1.1,
   ((C8_broadcast_amended {} "DMR" 1
      { timestamp := .clock 0, mode := "DMR", source := "A", destination := "B" }
      "DMR" (.bool true) none).2.2.2.2 rfl).1,
   ((C8_broadcast_amended {} "DMR" 1
      { timestamp := .clock 0, mode := "DMR", source := "A", destination := "B" }
      "DMR" (.bool true) none).2.2.2.2 rfl).2⟩

/-! ## Claim C3 — semantics of ending transmissions -/

theorem dictGet?_dictErase_self {α : Type} (d : List (String × α)) (k : String) :
    dictGet? (dictErase d k) k = none := by
  rw [dictGet?_eq_none_iff]
  intro kv hkv
  have := List.of_mem_filter hkv
  simpa using this

theorem dictGet?_dictErase_ne {α : Type} (d : List (String × α)) (k k' : String)
    (h : k' ≠ k) : dictGet? (dictErase d k) k' = dictGet? d k' := by
  induction d with
  | nil => rfl
  | cons kv rest ih =>
    obtain ⟨k0, v0⟩ := kv
    simp only [dictErase, List.filter_cons]
    by_cases h0 : k0 = k
    · subst h0
      simp only [bne_self_eq_false, Bool.false_eq_true, if_neg, if_false]
      rw [show dictGet? ((k0, v0) :: rest) k' = dictGet? rest k' by
        simp only [dictGet?]
        rw [if_neg (fun hh : k0 = k' => h hh.symm)]]
      exact ih
    · have hb : (k0 != k) = true := by simpa using h0
      rw [if_pos hb]
      simp only [dictGet?]
      by_cases h1 : k0 = k'
      · rw [if_pos h1, if_pos h1]
      · rw [if_neg h1, if_neg h1]
        exact ih

theorem endTransmission_active (st : DashboardState) (k : String) (d t : Nat) :
    (endTransmission st k d t).active_transmissions =
      dictErase st.active_transmissions k := by
  unfold endTransmission
  cases h : dictGet? st.active_transmissions k with
  | none =>
    rw [dictGet?_eq_none_iff] at h
    exact (List.filter_eq_self.mpr (fun kv hkv => by simpa using h kv hkv)).symm
  | some tx => simp [addEvent]

theorem endTransmission_of_none (st : DashboardState) (k : String) (d t : Nat)
    (h : dictGet? st.active_transmissions k = none) :
    endTransmission st k d t = st := by
  unfold endTransmission
  rw [h]

theorem foldl_endTransmission_active (t : Nat) (keys : List String)
    (st : DashboardState) :
    ((keys.foldl (fun s k => endTransmission s k 0 t) st).active_transmissions) =
      keys.foldl dictErase st.active_transmissions := by
  induction keys generalizing st with
  | nil => rfl
  | cons k ks ih =>
    simp only [List.foldl_cons]
    rw [ih, endTransmission_active]

theorem foldl_dictErase_eq_filter {α : Type} (keys : List String)
    (d : List (String × α)) :
    keys.foldl dictErase d = d.filter (fun kv => !(keys.contains kv.1)) := by
  induction keys generalizing d with
  | nil => simp
  | cons k ks ih =>
    simp only [List.foldl_cons]
    rw [ih]
    unfold dictErase
    rw [List.filter_filter]
    apply List.filter_congr
    intro kv _
    simp only [List.contains_cons, Bool.not_or, bne]
    cases h1 : kv.1 == k <;> cases h2 : ks.contains kv.1 <;> decide

theorem endTransmissionByMode_active (st : DashboardState) (m : String)
    (t : Nat) (hnd : (st.active_transmissions.map (·.1)).Nodup) :
    (endTransmissionByMode st m t).active_transmissions =
      st.active_transmissions.filter (fun kv => kv.2.mode != m) := by
  unfold endTransmissionByMode
  rw [foldl_endTransmission_active, foldl_dictErase_eq_filter]
  apply List.filter_congr
  intro kv hkv
  by_cases hm : kv.2.mode = m
  · have hmem : kv.1 ∈ (st.active_transmissions.filter
        (fun kv => kv.2.mode == m)).map (·.1) :=
      List.mem_map_of_mem _ (List.mem_filter.mpr ⟨hkv, by simpa using hm⟩)
    simp [hm, hmem]
  · have hnmem : kv.1 ∉ (st.active_transmissions.filter
        (fun kv => kv.2.mode == m)).map (·.1) := by
      intro hmem
      obtain ⟨kv', hkv', hkey⟩ := List.mem_map.mp hmem
      have hkv'mem := (List.mem_filter.mp hkv').1
      have hkv'mode : kv'.2.mode = m := by
        simpa using (List.mem_filter.mp hkv').2
      have heq : kv' = kv :=
        List.inj_on_of_nodup_map hnd hkv'mem hkv hkey
      exact hm (heq ▸ hkv'mode)
    simp [hnmem, hm]

/-- C3 (counterexample): with two active DMR records under different
`(mode, slot, source)` keys, a `TransmissionEnded` event for the key
`(DMR, 2, BOB)` removes *both* records — `process_entry` dispatches end
events through `end_transmission_by_mode`, which matches on mode only —
so a record with a different key is removed, contrary to the claim. -/
theorem C3_counterexample :
    (processEntry
      { active_transmissions :=
          [("DMR_1_ALICE",
            { timestamp := .clock 0, mode := "DMR", source := "ALICE",
              destination := "9", slot := 1 }),
           ("DMR_2_BOB",
            { timestamp := .clock 0, mode := "DMR", source := "BOB",
              destination := "9", slot := 2 })] }
      { timestamp := .clock 3, level := "INFO",
        message := "DMR Slot 2, received RF end of voice transmission from BOB to TG 9",
        source := "mmdvmhost",
        data := { event := some "dmr_end", mode := some "DMR", slot := some 2,
                  source := some "BOB", destination := some "9",
                  source_type := some "RF" } }
      3).active_transmissions = [] ∧
    ("DMR_1_ALICE" : String) ≠ "DMR_2_BOB" := by
  constructor
  · decide
  · decide

/-- C3 (amended): `end_transmission` itself has exactly the claimed
per-key semantics — an absent key is a silent no-op, a present key is
removed (leaving every other key untouched) and an `transmission_end`
history marker is appended; but a `TransmissionEnded` *event* is
dispatched through `end_transmission_by_mode`, which removes every
active record whose mode matches the event's mode, not only the record
with the matching `(mode, slot, source)` key. -/
theorem C3_end_transmission_amended :
    (∀ (st : DashboardState) (k : String) (d t : Nat),
      dictGet? st.active_transmissions k = none →
      endTransmission st k d t = st) ∧
    (∀ (st : DashboardState) (k : String) (d t : Nat) (tx : Transmission),
      dictGet? st.active_transmissions k = some tx →
      (endTransmission st k d t).active_transmissions =
        dictErase st.active_transmissions k ∧
      dictGet? (endTransmission st k d t).active_transmissions k = none ∧
      (∀ k', k' ≠ k →
        dictGet? (endTransmission st k d t).active_transmissions k' =
          dictGet? st.active_transmissions k') ∧
      (∃ e, (endTransmission st k d t).events =
          dequeAppend maxEvents st.events e ∧
        e.event_type = "transmission_end")) ∧
    (∀ (st : DashboardState) (m : String) (t : Nat),
      (st.active_transmissions.map (·.1)).Nodup →
      (endTransmissionByMode st m t).active_transmissions =
        st.active_transmissions.filter (fun kv => kv.2.mode != m)) := by
  refine ⟨endTransmission_of_none, ?_, endTransmissionByMode_active⟩
  intro st k d t tx h
  refine ⟨endTransmission_active st k d t, ?_, ?_, ?_⟩
  · rw [endTransmission_active]
    exact dictGet?_dictErase_self _ _
  · intro k' hk'
    rw [endTransmission_active]
    exact dictGet?_dictErase_ne _ _ _ hk'
  · unfold endTransmission
    rw [h]
    exact ⟨_, rfl, rfl⟩

/-- C3 witness: concrete no-op on an absent key, and exact-key removal
on a present one. -/
theorem C3_end_transmission_amended_witness :
    (endTransmission
      { active_transmissions :=
          [("DMR_1_ALICE",
            { timestamp := .clock 0, mode := "DMR", source := "ALICE",
              destination := "9", slot := 1 })] }
      "DMR_2_BOB" 0 5 =
      { active_transmissions :=
          [("DMR_1_ALICE",
            { timestamp := .clock 0, mode := "DMR", source := "ALICE",
              destination := "9", slot := 1 })] }) ∧
    (endTransmissionByMode
      { active_transmissions :=
          [("DMR_1_ALICE",
            { timestamp := .clock 0, mode := "DMR", source := "ALICE",
              destination := "9", slot := 1 }),
           ("YSF_0_CAROL",
            { timestamp := .clock 0, mode := "YSF", source := "CAROL",
              destination := "2", slot := 0 })] }
      "DMR" 5).active_transmissions =
      [("YSF_0_CAROL",
        { timestamp := .clock 0, mode := "YSF", source := "CAROL",
          destination := "2", slot := 0 })] :=
  ⟨C3_end_transmission_amended.1 _ "DMR_2_BOB" 0 5 (by decide),
   by
    rw [C3_end_transmission_amended.2.2 _ "DMR" 5 (by decide)]
    decide⟩

/-! ## Claim C2 — unresolved backfill targets and the 'unknown' marking -/

/-- C2 (divergence witness): after a full 14-day scan in which nothing
was found, `_mark_unknown_state` marks only the YSF and P25 reflector
facts as `'unknown'`.  For a `DMRGateway` monitor both targets stay
unresolved, yet the state receives no entry at all (the
`dmr_network_connection` branch is a literal `pass` and
`dmr_mmdvm_connection` has no branch); for an MMDVMHost monitor the
unresolved `current_mode` is silently left at its default `IDLE`.  This
contradicts the claim (and the function's own documentation) that every
unresolved target is explicitly set to an 'unknown' status. -/
theorem C2_unknown_marking_partial :
    ((parseRecentEntries "DMRGateway" none (fun _ => none) 5000 {} 9).1.status.networks
      = [] ∧
     (parseRecentEntries "DMRGateway" none (fun _ => none) 5000 {} 9).2.1 =
      [("dmr_mmdvm_connection", false), ("dmr_network_connection", false)]) ∧
    ((parseRecentEntries "MMDVMHost" none (fun _ => none) 5000 {} 9).1.status.current_mode
      = "IDLE" ∧
     (parseRecentEntries "MMDVMHost" none (fun _ => none) 5000 {} 9).1.status.networks
      = []) ∧
    (dictGet? (parseRecentEntries "YSFGateway" none (fun _ => none) 5000 {} 9).1.status.networks
      "YSF-Reflector" = some (.str "unknown")) ∧
    (dictGet? (parseRecentEntries "P25Gateway" none (fun _ => none) 5000 {} 9).1.status.networks
      "P25-Reflector" = some (.str "unknown")) := by
  decide

/-! ## Claim C6 — early stopping of the backfill scan -/

theorem scanLines_allFound (parse : Option (String → Option LogEntry)) (t : Nat)
    (ls : List String) (st : DashboardState) (tg : Targets) (f : Nat)
    (h : allFound tg = true) :
    scanLines parse t ls st tg f = (st, tg, f) := by
  induction ls with
  | nil => rfl
  | cons l ls ih =>
    unfold scanLines
    by_cases hl : pyStrip l = ""
    · rw [if_pos hl]
      exact ih
    · rw [if_neg hl, if_pos h]

theorem scanLines_append (parse : Option (String → Option LogEntry)) (t : Nat)
    (l1 l2 : List String) (st : DashboardState) (tg : Targets) (f : Nat)
    (h : allFound (scanLines parse t l1 st tg f).2.1 = true) :
    scanLines parse t (l1 ++ l2) st tg f = scanLines parse t l1 st tg f := by
  induction l1 generalizing st tg f with
  | nil =>
    simp only [List.nil_append]
    exact scanLines_allFound parse t l2 st tg f h
  | cons l l1 ih =>
    rw [List.cons_append]
    unfold scanLines
    unfold scanLines at h
    by_cases hl : pyStrip l = ""
    · simp only [if_pos hl] at h ⊢
      exact ih st tg f h
    · simp only [if_neg hl] at h ⊢
      by_cases hf : allFound tg = true
      · simp only [if_pos hf] at h ⊢
      · simp only [if_neg hf] at h ⊢
        cases parse with
        | none => exact ih st tg f h
        | some p =>
          dsimp only at h ⊢
          cases hp : p (pyStrip l) with
          | none =>
            rw [hp] at h
            dsimp only at h ⊢
            exact ih st tg f h
          | some entry =>
            rw [hp] at h
            dsimp only at h ⊢
            exact ih _ _ _ h

theorem dayLoop_allFound (parse : Option (String → Option LogEntry)) (t : Nat)
    (files : Nat → Option (List String)) (lookback : Nat) (ds : List Nat)
    (st : DashboardState) (tg : Targets) (h : allFound tg = true) :
    dayLoop parse t files lookback ds st tg = (st, tg, 0, []) := by
  cases ds with
  | nil => rfl
  | cons d ds =>
    unfold dayLoop
    rw [if_pos h]

theorem dayLoop_append (parse : Option (String → Option LogEntry)) (t : Nat)
    (files : Nat → Option (List String)) (lookback : Nat) (ds1 ds2 : List Nat)
    (st : DashboardState) (tg : Targets)
    (h : allFound (dayLoop parse t files lookback ds1 st tg).2.1 = true) :
    dayLoop parse t files lookback (ds1 ++ ds2) st tg =
      dayLoop parse t files lookback ds1 st tg := by
  induction ds1 generalizing st tg with
  | nil =>
    simp only [List.nil_append]
    exact dayLoop_allFound parse t files lookback ds2 st tg h
  | cons d ds1 ih =>
    rw [List.cons_append]
    unfold dayLoop
    unfold dayLoop at h
    by_cases hf : allFound tg = true
    · simp only [if_pos hf] at h ⊢
    · simp only [if_neg hf] at h ⊢
      cases hd : files d with
      | none =>
        rw [hd] at h
        dsimp only at h ⊢
        exact ih st tg h
      | some lines =>
        rw [hd] at h
        dsimp only at h ⊢
        rw [ih _ _ h]

theorem dayLoop_opened_subset (parse : Option (String → Option LogEntry))
    (t : Nat) (files : Nat → Option (List String)) (lookback : Nat)
    (ds : List Nat) (st : DashboardState) (tg : Targets) :
    (dayLoop parse t files lookback ds st tg).2.2.2 ⊆ ds := by
  induction ds generalizing st tg with
  | nil => simp [dayLoop]
  | cons d ds ih =>
    unfold dayLoop
    by_cases hf : allFound tg = true
    · rw [if_pos hf]
      intro x hx
      cases hx
    · rw [if_neg hf]
      cases hd : files d with
      | none => exact (ih st tg).trans (List.subset_cons_self d ds)
      | some lines =>
        dsimp only
        intro x hx
        rw [List.mem_cons] at hx
        rcases hx with hx | hx
        · exact hx ▸ List.mem_cons_self d ds
        · exact List.mem_cons_of_mem d (ih _ _ hx)

/-- C6: the backfill scan stops early at both levels.  (i) Within one
file: once the targets are all resolved after scanning a prefix of the
(reversed) lines, scanning any longer list returns the identical result —
no further line changes the state, the targets or the found counter; in
particular a scan whose targets are already resolved does nothing.
(ii) Across days: once the targets are all resolved after a prefix of
the day walk, appending more days changes nothing and opens no further
file.  (iii) The walk only ever opens files of the 14 days
`days_back = 0..13`. -/
theorem C6_backfill_early_stop :
    (∀ (parse : Option (String → Option LogEntry)) (t : Nat)
       (l1 l2 : List String) (st : DashboardState) (tg : Targets) (f : Nat),
       allFound (scanLines parse t l1 st tg f).2.1 = true →
       scanLines parse t (l1 ++ l2) st tg f = scanLines parse t l1 st tg f) ∧
    (∀ (parse : Option (String → Option LogEntry)) (t : Nat)
       (files : Nat → Option (List String)) (lookback : Nat)
       (ds1 ds2 : List Nat) (st : DashboardState) (tg : Targets),
       allFound (dayLoop parse t files lookback ds1 st tg).2.1 = true →
       dayLoop parse t files lookback (ds1 ++ ds2) st tg =
         dayLoop parse t files lookback ds1 st tg) ∧
    (∀ (parse : Option (String → Option LogEntry)) (t : Nat)
       (files : Nat → Option (List String)) (lookback : Nat)
       (name : String) (st : DashboardState),
       (parseRecentEntries name parse files lookback st t).2.2.2 ⊆
         List.range 14) :=
  ⟨scanLines_append, dayLoop_append,
   fun parse t files lookback name st =>
     dayLoop_opened_subset parse t files lookback (List.range 14) st
       (getStateTargets name)⟩

/-- C6 witness: with the MMDVMHost parser and the single target
`current_mode`, the target resolves on the first line, so scanning
further lines changes nothing. -/
theorem C6_backfill_early_stop_witness :
    scanLines (some (fun l => (parseLineM {} l 0).2)) 0
        (["M: 2025-01-15 12:00:00.000 Mode set to DMR"] ++
         ["M: 2025-01-15 11:59:00.000 Mode set to YSF"])
        {} [("current_mode", false)] 0 =
      scanLines (some (fun l => (parseLineM {} l 0).2)) 0
        ["M: 2025-01-15 12:00:00.000 Mode set to DMR"]
        {} [("current_mode", false)] 0 :=
  C6_backfill_early_stop.1 (some (fun l => (parseLineM {} l 0).2)) 0
    ["M: 2025-01-15 12:00:00.000 Mode set to DMR"]
    ["M: 2025-01-15 11:59:00.000 Mode set to YSF"]
    {} [("current_mode", false)] 0 (by decide)

/-! ## Claim C9 — the read cursor decreases only at a detected rotation -/

theorem checkLogRotation_spec (fs : String → Option (List Char)) (today : String)
    (mon : TailMonitor) :
    ((checkLogRotation fs today mon).2 = true →
      (checkLogRotation fs today mon).1.last_position = 0 ∧
      (fs (checkLogRotation fs today mon).1.path).isSome = true) ∧
    ((checkLogRotation fs today mon).2 = false →
      (checkLogRotation fs today mon).1 = mon) := by
  unfold checkLogRotation
  cases hd : extractDate mon.path with
  | none => exact ⟨fun h => (nomatch h), fun _ => rfl⟩
  | some oldDate =>
    dsimp only
    by_cases he : oldDate = today
    · rw [if_pos he]
      exact ⟨fun h => (nomatch h), fun _ => rfl⟩
    · rw [if_neg he]
      by_cases hex : (fs (mon.path.replace oldDate today)).isSome = true
      · rw [if_pos hex]
        exact ⟨fun _ => ⟨rfl, hex⟩, fun h => (nomatch h)⟩
      · rw [if_neg hex]
        exact ⟨fun h => (nomatch h), fun _ => rfl⟩

/-- C9: over one `check_for_updates` poll the cursor never decreases
except when a rotation is detected — a switch to a newly existing dated
file, or the file size dropping below the cursor — and at a detected
rotation the next read (if any data is present) starts from byte 0;
when there is nothing to read the cursor itself is left at 0. -/
theorem C9_cursor_rotation_reset (fs : String → Option (List Char))
    (today : String) (now : Nat) (name : String)
    (parse : Option (String → Option LogEntry)) (mon : TailMonitor)
    (st : DashboardState) :
    ((checkForUpdates fs today now name parse mon st).1.last_position <
        mon.last_position →
      (checkForUpdates fs today now name parse mon st).2.2.rotatedSwitch = true ∨
      (checkForUpdates fs today now name parse mon st).2.2.shrinkReset = true) ∧
    (((checkForUpdates fs today now name parse mon st).2.2.rotatedSwitch = true ∨
      (checkForUpdates fs today now name parse mon st).2.2.shrinkReset = true) →
      (checkForUpdates fs today now name parse mon st).2.2.readStart = some 0 ∨
      ((checkForUpdates fs today now name parse mon st).2.2.readStart = none ∧
       (checkForUpdates fs today now name parse mon st).1.last_position = 0)) := by
  have hspec := checkLogRotation_spec fs today { mon with last_check_time := now }
  unfold checkForUpdates
  by_cases hr : 60 < now - mon.last_check_time
  · rw [if_pos hr]
    generalize hc : checkLogRotation fs today { mon with last_check_time := now } = c
      at hspec ⊢
    obtain ⟨mon1, rotated⟩ := c
    dsimp only at hspec ⊢
    cases rotated with
    | true =>
      obtain ⟨hpos0, hsome⟩ := hspec.1 rfl
      cases hfs : fs mon1.path with
      | none =>
        rw [hfs] at hsome
        cases hsome
      | some content =>
        dsimp only
        have hshr : ¬ content.length < mon1.last_position := by omega
        rw [if_neg hshr]
        by_cases heq : content.length = mon1.last_position
        · rw [if_pos heq]
          constructor
          · intro _
            exact Or.inl rfl
          · intro _
            refine Or.inr ⟨rfl, ?_⟩
            dsimp only
            omega
        · rw [if_neg heq]
          constructor
          · intro _
            exact Or.inl rfl
          · intro _
            refine Or.inl ?_
            dsimp only
            rw [hpos0]
    | false =>
      have hmon1 := hspec.2 rfl
      subst hmon1
      cases hfs : fs ({ mon with last_check_time := now } : TailMonitor).path with
      | none =>
        dsimp only
        constructor
        · intro h
          exact absurd h (by omega)
        · intro h
          rcases h with h | h
          · exact nomatch h
          · exact nomatch h
      | some content =>
        dsimp only
        by_cases hs : content.length < mon.last_position
        · rw [if_pos hs]
          by_cases heq : content.length = 0
          · rw [if_pos (show content.length = (0 : Nat) from heq)]
            constructor
            · intro _
              exact Or.inr (by simpa using hs)
            · intro _
              exact Or.inr ⟨rfl, rfl⟩
          · rw [if_neg (show ¬ content.length = (0 : Nat) from heq)]
            constructor
            · intro _
              exact Or.inr (by simpa using hs)
            · intro _
              exact Or.inl rfl
        · rw [if_neg hs]
          by_cases heq : content.length = mon.last_position
          · rw [if_pos heq]
            constructor
            · intro h
              dsimp only at h
              omega
            · intro h
              rcases h with h | h
              · exact nomatch h
              · dsimp only at h
                rw [decide_eq_true_eq] at h
                exact absurd h hs
          · rw [if_neg heq]
            constructor
            · intro h
              dsimp only at h
              omega
            · intro h
              rcases h with h | h
              · exact nomatch h
              · dsimp only at h
                rw [decide_eq_true_eq] at h
                exact absurd h hs
  · rw [if_neg hr]
    dsimp only
    cases hfs : fs mon.path with
    | none =>
      dsimp only
      constructor
      · intro h
        exact absurd h (by omega)
      · intro h
        rcases h with h | h
        · exact nomatch h
        · exact nomatch h
    | some content =>
      dsimp only
      by_cases hs : content.length < mon.last_position
      · rw [if_pos hs]
        by_cases heq : content.length = 0
        · rw [if_pos (show content.length = (0 : Nat) from heq)]
          constructor
          · intro _
            exact Or.inr (by simpa using hs)
          · intro _
            exact Or.inr ⟨rfl, rfl⟩
        · rw [if_neg (show ¬ content.length = (0 : Nat) from heq)]
          constructor
          · intro _
            exact Or.inr (by simpa using hs)
          · intro _
            exact Or.inl rfl
      · rw [if_neg hs]
        by_cases heq : content.length = mon.last_position
        · rw [if_pos heq]
          constructor
          · intro h
            dsimp only at h
            omega
          · intro h
            rcases h with h | h
            · exact nomatch h
            · dsimp only at h
              rw [decide_eq_true_eq] at h
              exact absurd h hs
        · rw [if_neg heq]
          constructor
          · intro h
            dsimp only at h
            omega
          · intro h
            rcases h with h | h
            · exact nomatch h
            · dsimp only at h
              rw [decide_eq_true_eq] at h
              exact absurd h hs

/-- C9 witness: the spec's shrink scenario — a file that shrank from
5000 to 2 bytes between polls.  The shrink is detected and the read
starts from byte 0, not from cursor 5000. -/
theorem C9_cursor_rotation_reset_witness :
    (checkForUpdates (fun p => if p = "mmdvm.log" then some "ab".data else none)
        "2025-01-15" 10 "X" none
        { path := "mmdvm.log", last_position := 5000, last_check_time := 0 }
        {}).2.2.readStart = some 0 ∨
    ((checkForUpdates (fun p => if p = "mmdvm.log" then some "ab".data else none)
        "2025-01-15" 10 "X" none
        { path := "mmdvm.log", last_position := 5000, last_check_time := 0 }
        {}).2.2.readStart = none ∧
     (checkForUpdates (fun p => if p = "mmdvm.log" then some "ab".data else none)
        "2025-01-15" 10 "X" none
        { path := "mmdvm.log", last_position := 5000, last_check_time := 0 }
        {}).1.last_position = 0) :=
  (C9_cursor_rotation_reset
    (fun p => if p = "mmdvm.log" then some "ab".data else none)
    "2025-01-15" 10 "X" none
    { path := "mmdvm.log", last_position := 5000, last_check_time := 0 }
    {}).2 (Or.inr (by decide))

/-! ## Claim C10 — the missing `add_log_entry` attribute on live MMDVM tails -/

/-- C10: for a monitor named `MMDVM`, `mmdvm` or `MMDVMHost`, live-tail
processing of a batch containing any non-empty line hits the attribute
lookup `state.add_log_entry` — a method `DashboardState` does not define —
so an `AttributeError` is raised before any line of the batch is parsed:
the line loop returns the state unchanged with zero entries applied and
the error escaping to the per-poll handler.  At the poll level the error
is caught there, the State Store is untouched, and the cursor has already
been advanced to the end of the file, so the batch is dropped, not
retried. -/
theorem C10_add_log_entry_attribute_error :
    (∀ (name : String) (parse : Option (String → Option LogEntry)) (t : Nat)
       (lines : List String) (st : DashboardState),
       mmdvmNames.contains name = true →
       (∃ l ∈ lines, pyStrip l ≠ "") →
       processLines name parse t lines st =
         (st, some "AttributeError: 'DashboardState' object has no attribute 'add_log_entry'",
          0)) ∧
    (∀ (fs : String → Option (List Char)) (today : String) (now : Nat)
       (name : String) (parse : Option (String → Option LogEntry))
       (mon : TailMonitor) (st : DashboardState) (content : List Char),
       mmdvmNames.contains name = true →
       fs mon.path = some content →
       now - mon.last_check_time ≤ 60 →
       mon.last_position < content.length →
       (∃ l ∈ splitNewlines (content.drop mon.last_position), pyStrip l ≠ "") →
       (checkForUpdates fs today now name parse mon st).1.last_position =
         content.length ∧
       (checkForUpdates fs today now name parse mon st).2.1 = st ∧
       (checkForUpdates fs today now name parse mon st).2.2.errorCaught = true ∧
       (checkForUpdates fs today now name parse mon st).2.2.appliedEntries = 0) := by
  have hmethod : dashboardStateMethods.contains "add_log_entry" = false := by decide
  have part1 : ∀ (name : String) (parse : Option (String → Option LogEntry))
      (t : Nat) (lines : List String) (st : DashboardState),
      mmdvmNames.contains name = true →
      (∃ l ∈ lines, pyStrip l ≠ "") →
      processLines name parse t lines st =
        (st, some "AttributeError: 'DashboardState' object has no attribute 'add_log_entry'",
         0) := by
    intro name parse t lines
    induction lines with
    | nil =>
      intro st _ hex
      obtain ⟨l, hl, _⟩ := hex
      cases hl
    | cons l ls ih =>
      intro st hname hex
      unfold processLines
      by_cases hl : pyStrip l = ""
      · rw [if_pos hl]
        refine ih st hname ?_
        obtain ⟨x, hx, hne⟩ := hex
        rw [List.mem_cons] at hx
        rcases hx with hx | hx
        · exact absurd (hx ▸ hl) hne
        · exact ⟨x, hx, hne⟩
      · rw [if_neg hl]
        rw [if_pos (by rw [hname, hmethod]; rfl)]
  refine ⟨part1, ?_⟩
  intro fs today now name parse mon st content hname hfs hr hpos hex
  unfold checkForUpdates
  rw [if_neg (show ¬ 60 < now - mon.last_check_time by omega)]
  dsimp only
  rw [hfs]
  dsimp only
  rw [if_neg (show ¬ content.length < mon.last_position by omega)]
  rw [if_neg (show ¬ content.length = mon.last_position by omega)]
  rw [part1 name parse now (splitNewlines (content.drop mon.last_position)) st
    hname hex]
  exact ⟨rfl, rfl, rfl, rfl⟩

/-- C10 witness: a concrete `MMDVM` monitor with one appended line
`"x"` — the batch is dropped, the state untouched, the cursor advanced. -/
theorem C10_add_log_entry_attribute_error_witness :
    (checkForUpdates (fun _ => some "x\n".data) "2025-01-15" 10 "MMDVM"
        none { path := "p", last_position := 0, last_check_time := 0 }
        {}).1.last_position = ("x\n".data).length ∧
    (checkForUpdates (fun _ => some "x\n".data) "2025-01-15" 10 "MMDVM"
        none { path := "p", last_position := 0, last_check_time := 0 }
        {}).2.1 = ({} : DashboardState) ∧
    (checkForUpdates (fun _ => some "x\n".data) "2025-01-15" 10 "MMDVM"
        none { path := "p", last_position := 0, last_check_time := 0 }
        {}).2.2.errorCaught = true ∧
    (checkForUpdates (fun _ => some "x\n".data) "2025-01-15" 10 "MMDVM"
        none { path := "p", last_position := 0, last_check_time := 0 }
        {}).2.2.appliedEntries = 0 :=
  C10_add_log_entry_attribute_error.2 (fun _ => some "x\n".data) "2025-01-15"
    10 "MMDVM" none { path := "p", last_position := 0, last_check_time := 0 }
    {} ("x\n".data) (by decide) rfl (by decide) (by decide)
    ⟨"x", by decide, by decide⟩

/-! ## Claim C4 — determinism of the Event Normalizer -/

/-- The structured data extracted by `MMDVMHostParser._parse_message`
depends only on the message text, never on the parser object's mutable
fields (`current_mode`, `network_status`). -/
theorem parseMessageM_data (ps ps' : MParserState) (msg : String) :
    (parseMessageM ps msg).2 = (parseMessageM ps' msg).2 := by
  unfold parseMessageM
  cases reSearch modeSetToks msg with
  | some caps => rfl
  | none =>
  cases reSearch dmrRxToks msg with
  | some caps => rfl
  | none =>
  cases reSearch dmrEndToks msg with
  | some caps => rfl
  | none =>
  cases reSearch dstarRxToks msg with
  | some caps => rfl
  | none =>
  cases reSearch dstarEndToks msg with
  | some caps => rfl
  | none =>
  cases reSearch ysfRxToks msg with
  | some caps => rfl
  | none =>
  cases reSearch ysfEndToks msg with
  | some caps => rfl
  | none =>
  cases reSearch p25RxToks msg with
  | some caps => rfl
  | none =>
  cases reSearch p25HeaderToks msg with
  | some caps => rfl
  | none =>
  cases reSearch p25EndToks msg with
  | some caps => rfl
  | none =>
  cases reSearch nxdnRxToks msg with
  | some caps => rfl
  | none =>
  cases reSearch nxdnEndToks msg with
  | some caps => rfl
  | none =>
  cases reSearch fmRxToks msg with
  | some caps => rfl
  | none =>
  cases reSearch networkConnectedToks msg with
  | some caps => rfl
  | none =>
  cases reSearch networkDisconnectedToks msg with
  | some caps => rfl
  | none =>
  cases reSearch modemStatusToks msg with
  | some caps => rfl
  | none =>
  cases reSearch modemErrorToks msg with
  | some caps => rfl
  | none =>
  rfl

/-- C4 (counterexample): `parse_line` is not deterministic on every raw
line — on a line whose header matches the timestamp regex but whose
timestamp is rejected by `strptime` (month 13), the entry's timestamp is
taken from `datetime.now()`, so two invocations at different clock
readings return different results. -/
theorem C4_counterexample :
    (parseLineM {} "M: 2025-13-01 12:00:00.000 Mode set to DMR" 1).2 ≠
      (parseLineM {} "M: 2025-13-01 12:00:00.000 Mode set to DMR" 2).2 := by
  decide

/-- C4 (amended): for every raw line that does not hit the
`datetime.now()` fallback (its header either fails to match, or carries
a timestamp `strptime` accepts), `parse_line` is a pure function of the
line alone: the `MMDVMHost` parser's result does not depend on the clock
or on the parser object's mutable state, and the (stateless) YSF gateway
parser's result does not depend on the clock.  Two invocations on the
identical line therefore yield the identical optional entry — timestamp,
level, message and structured event data. -/
theorem C4_determinism_amended (line : String) (h : usesClock line = false) :
    (∀ (ps ps' : MParserState) (n n' : Nat),
      (parseLineM ps line n).2 = (parseLineM ps' line n').2) ∧
    (∀ (n n' : Nat), parseLineY line n = parseLineY line n') := by
  unfold usesClock at h
  constructor
  · intro ps ps' n n'
    unfold parseLineM
    cases hh : parseHeader line with
    | none => rfl
    | some trip =>
      obtain ⟨c, tsf, msg⟩ := trip
      rw [hh] at h
      dsimp only at h
      have hv : validTs tsf = true := by simpa using h
      dsimp only
      simp only [if_pos hv]
      rw [parseMessageM_data ps ps' msg]
  · intro n n'
    unfold parseLineY
    cases hh : parseHeader line with
    | none => rfl
    | some trip =>
      obtain ⟨c, tsf, msg⟩ := trip
      rw [hh] at h
      dsimp only at h
      have hv : validTs tsf = true := by simpa using h
      dsimp only
      simp only [if_pos hv]

/-- C4 witness: on a concrete well-formed line, the MMDVMHost parser
returns the identical entry for two different clock readings and two
different parser states. -/
theorem C4_determinism_amended_witness :
    usesClock "M: 2025-01-15 12:00:00.000 Mode set to DMR" = false ∧
    (parseLineM {} "M: 2025-01-15 12:00:00.000 Mode set to DMR" 1).2 =
      (parseLineM { current_mode := "YSF" }
        "M: 2025-01-15 12:00:00.000 Mode set to DMR" 2).2 :=
  ⟨by decide,
   (C4_determinism_amended "M: 2025-01-15 12:00:00.000 Mode set to DMR"
      (by decide)).1 {} { current_mode := "YSF" } 1 2⟩

end MMDVMDash
